import Mathlib

/-!
# Request handling of the kaomoji generator (`server.js`)

A shallow embedding of the four route handlers of `server.js` and of
`generateKaomoji`, followed by the properties of the rendering contexts
they hand to the view renderer.

Conventions of the embedding.

* A JavaScript object literal is the list of its members in property order
  (`JsObject`); reading a member that is missing gives `undefined`.
* The handlers close over module-level constants: the site metadata `seo`,
  the colour table `colors` (`src/colors.json`), the completion client
  `openai` and the runtime's `Math.random` and `String.prototype.toLowerCase`.
  Each of them is an explicit argument here.
* A number is the rational it denotes. `Math.random()` returns a double, and
  a product of doubles is rounded to the nearest double (`roundDouble`).
* A handler's effect is the call `reply.view(template, params)`; it is the
  value `Reply`. A handler that may end without that call returns an
  `Option`.
-/

namespace Kaomoji

/-! ## Values and objects -/

/-- JavaScript values that occur in the handlers: the JSON values of the data
files, `undefined`, and the built-in functions and objects that a plain object
inherits from `Object.prototype` (named by the path that reaches them). -/
inductive JsValue where
  | undefined
  | null
  | bool (b : Bool)
  | number (x : ℚ)
  | string (s : String)
  | array (items : List JsValue)
  | object (members : List (String × JsValue))
  | native (path : String)

/-- A plain object: its own members, in property order. -/
abbrev JsObject := List (String × JsValue)

/-- The truth value of a value in a condition (`ToBoolean`). -/
def JsValue.truthy : JsValue → Bool
  | .undefined => false
  | .null => false
  | .bool b => b
  | .number x => decide (x ≠ 0)
  | .string s => decide (s ≠ "")
  | .array _ => true
  | .object _ => true
  | .native _ => true

/-- A value is non-null when it is neither `null` nor `undefined`
(the test `v != null`). -/
def JsValue.nonNull : JsValue → Bool
  | .undefined => false
  | .null => false
  | _ => true

/-- The truth value of an optional form field: a missing field is `undefined`,
a present one is a string, true when it is not empty. -/
def fieldTruthy : Option String → Bool
  | none => false
  | some s => decide (s ≠ "")

/-- Own member of an object, when it has one of that name. -/
def ownProperty (o : JsObject) (key : String) : Option JsValue :=
  o.lookup key

/-- Reading `o.key` of an object literal built by a handler. -/
def field (o : JsObject) (key : String) : JsValue :=
  (ownProperty o key).getD .undefined

/-- The members every plain object inherits from `Object.prototype`. -/
def objectPrototype : JsObject :=
  [ ("constructor", .native "Object"),
    ("__defineGetter__", .native "Object.prototype.__defineGetter__"),
    ("__defineSetter__", .native "Object.prototype.__defineSetter__"),
    ("hasOwnProperty", .native "Object.prototype.hasOwnProperty"),
    ("__lookupGetter__", .native "Object.prototype.__lookupGetter__"),
    ("__lookupSetter__", .native "Object.prototype.__lookupSetter__"),
    ("isPrototypeOf", .native "Object.prototype.isPrototypeOf"),
    ("propertyIsEnumerable", .native "Object.prototype.propertyIsEnumerable"),
    ("toString", .native "Object.prototype.toString"),
    ("valueOf", .native "Object.prototype.valueOf"),
    ("__proto__", .native "Object.prototype"),
    ("toLocaleString", .native "Object.prototype.toLocaleString") ]

/-- The property read `o[key]` on an object parsed from JSON: the own member,
else the member inherited from `Object.prototype`, else `undefined`. -/
def getProperty (o : JsObject) (key : String) : JsValue :=
  match ownProperty o key with
  | some v => v
  | none =>
    match ownProperty objectPrototype key with
    | some v => v
    | none => .undefined

/-- `Object.keys(o)`: the names of the own members, in property order. -/
def objectKeys (o : JsObject) : List String :=
  o.map Prod.fst

/-! ## The view renderer's input -/

/-- One call `reply.view(template, params)`. -/
structure Reply where
  template : String
  params : JsObject

/-! ## `GET /` -/

/-- `fastify.get("/")`. -/
def getIndex (seo : JsValue) : Reply :=
  let params : JsObject := [("seo", seo)]
  { template := "/src/pages/index.hbs", params := params }

/-! ## `generateKaomoji` and `POST /` -/

/-- One element of `data.choices`; `text` may be missing. -/
structure Choice where
  text : Option String

/-- The part of the completion response the code reads:
`chatCompletion.data.choices`, missing or an array. -/
structure CompletionData where
  choices : Option (List Choice)

/-- The value `openai.createCompletion` resolves to. -/
structure CompletionResponse where
  data : CompletionData

/-- The completion client: given the request object it resolves to a response
or rejects with an error (here, its message). -/
abbrev CompletionClient := JsObject → Except String CompletionResponse

/-- `choices[0].text` as a value: `undefined` when the member is missing. -/
def Choice.textValue (c : Choice) : JsValue :=
  match c.text with
  | some t => .string t
  | none => .undefined

/-- The template literal bound to `prompt` in `generateKaomoji`. -/
def prompt (word : String) : String :=
  "You are given a sentence with a maximum of 4 words: \"" ++ word ++
  "\". Generate a kaomoji withou emoji or emoticon to express the sentiment of the sentence or something related to the action of the verb. Don't use words only the Kaomoji."

/-- The object literal passed to `openai.createCompletion`. -/
def completionRequest (word : String) : JsObject :=
  [ ("model", .string "text-davinci-003"),
    ("prompt", .string (prompt word)),
    ("temperature", .number (8 / 10)) ]

/-- `generateKaomoji(word)`: the requests it sent to the completion client,
and its result (the returned value, or the message of the error thrown). -/
def generateKaomoji (openai : CompletionClient) (word : String) :
    List JsObject × Except String JsValue :=
  let maxTokens : Nat := 100
  let request := completionRequest word
  match openai request with
  | .error e => ([request], .error e)
  | .ok chatCompletion =>
    match chatCompletion.data.choices with
    | some (first :: _) => ([request], .ok first.textValue)
    | some [] => ([request], .error "No kaomoji generated.")
    | none => ([request], .error "No kaomoji generated.")

/-- What one `POST /` does: the requests sent to the completion client, the
errors written with `console.error`, and the view rendered, if any. -/
structure PostIndexOutcome where
  requests : List JsObject
  logged : List String
  reply : Option Reply

/-- `fastify.post("/")`, on the form field `word` of the request body. -/
def postIndex (seo : JsValue) (openai : CompletionClient) (word : Option String) :
    PostIndexOutcome :=
  if fieldTruthy word then
    let w := word.getD ""
    match generateKaomoji openai w with
    | (sent, .ok kaomoji) =>
      { requests := sent, logged := [],
        reply := some
          { template := "/src/pages/index.hbs",
            params := [("kaomoji", kaomoji), ("word", .null), ("error", .bool false),
                       ("seo", seo)] } }
    | (sent, .error error) =>
      { requests := sent, logged := [error],
        reply := some
          { template := "/src/pages/index.hbs",
            params := [("kaomoji", .null), ("word", .string w), ("error", .bool true),
                       ("seo", seo)] } }
  else
    { requests := [], logged := [], reply := none }

/-! ## The colour routes -/

/-- The characters the regular expression `\s` matches. -/
def isWhiteSpace (c : Char) : Bool :=
  let n := c.toNat
  n == 0x09 || n == 0x0A || n == 0x0B || n == 0x0C || n == 0x0D || n == 0x20 ||
  n == 0xA0 || n == 0x1680 || (0x2000 ≤ n && n ≤ 0x200A) || n == 0x2028 ||
  n == 0x2029 || n == 0x202F || n == 0x205F || n == 0x3000 || n == 0xFEFF

/-- The runtime's lower-case mapping: the characters that replace a character
of a string, given the characters before it and the characters after it. -/
abbrev CaseMapping := List Char → Char → List Char → List Char

/-- The lower-cased characters of `chars`, which follow `before` in the string. -/
def lowerFrom (lower : CaseMapping) (before : List Char) : List Char → List Char
  | [] => []
  | c :: after => lower before c after ++ lowerFrom lower (before ++ [c]) after

/-- `s.toLowerCase()`, for the runtime's lower-case mapping `lower`. -/
def toLowerCase (lower : CaseMapping) (s : String) : String :=
  String.mk (lowerFrom lower [] s.data)

/-- `s.replace(/\s/g, "")`. -/
def removeWhiteSpace (s : String) : String :=
  String.mk (s.data.filter (fun c => !isWhiteSpace c))

/-- The normalisation `color.toLowerCase().replace(/\s/g, "")` of
`fastify.post("/hello-node")`. -/
def normalize (lower : CaseMapping) (color : String) : String :=
  removeWhiteSpace (toLowerCase lower color)

/-- The lower-case mapping on the ASCII range: `A`-`Z` go to `a`-`z`, every
other character stays, whatever surrounds it. -/
def asciiLower : CaseMapping :=
  fun _ c _ => [c.toLower]

/-- The spacing of the doubles around `x`, below the overflow threshold:
`2^(e-52)` when `2^e ≤ |x| < 2^(e+1)`, and `2^(-1074)` in the subnormal range
(`|x| < 2^(-1022)`). -/
def doubleSpacing (x : ℚ) : ℚ :=
  (2 : ℚ) ^ (max (Int.log 2 |x|) (-1022) - 52)

/-- The integer nearest to `y`, the even one of the two when `y` is halfway. -/
def roundHalfEven (y : ℚ) : Int :=
  let f : Int := ⌊y⌋
  if y - f < 1 / 2 then f
  else if 1 / 2 < y - f then f + 1
  else if f % 2 = 0 then f else f + 1

/-- The double nearest to `x` (round to nearest, ties to even), the result of
an arithmetic operation whose exact value is `x`, below the overflow
threshold. -/
def roundDouble (x : ℚ) : ℚ :=
  (roundHalfEven (x / doubleSpacing x) : ℚ) * doubleSpacing x

/-- The number `x` is a double: rounding leaves it unchanged. -/
def isDouble (x : ℚ) : Bool :=
  decide (roundDouble x = x)

/-- `x << 0`: the number converted to a signed 32-bit integer (`ToInt32`):
truncated towards zero, reduced modulo `2^32`, and read as two's complement. -/
def toInt32 (x : ℚ) : Int :=
  let truncated : Int := if 0 ≤ x then ⌊x⌋ else ⌈x⌉
  let wrapped : Int := truncated % 2 ^ 32
  if 2 ^ 31 ≤ wrapped then wrapped - 2 ^ 32 else wrapped

/-- The index `(allColors.length * Math.random()) << 0`, for the double
`random` that `Math.random()` returned: the length of an array is an integer
below `2^32`, hence a double, and the product is a double product. -/
def randomIndex (length : Nat) (random : ℚ) : Int :=
  toInt32 (roundDouble ((length : ℚ) * random))

/-- The element read `xs[i]` of an array of strings: `none` is `undefined`. -/
def arrayGet (xs : List String) (i : Int) : Option String :=
  if 0 ≤ i then xs[i.toNat]? else none

/-- `colors[currentColor]` where `currentColor` was read from an array: an
`undefined` index value is converted to the property name `"undefined"`. -/
def getPropertyAt (colors : JsObject) (currentColor : Option String) : JsValue :=
  match currentColor with
  | some key => getProperty colors key
  | none => getProperty colors "undefined"

/-- `fastify.get("/hello-node")`, on the query field `randomize`; `random` is
the double `Math.random()` returns when it is called. -/
def getHelloNode (seo : JsValue) (colors : JsObject) (random : ℚ)
    (randomize : Option String) : Reply :=
  if fieldTruthy randomize then
    let allColors := objectKeys colors
    let currentColor := arrayGet allColors (randomIndex allColors.length random)
    { template := "/src/pages/hello-node.hbs",
      params := [("color", getPropertyAt colors currentColor), ("colorError", .null),
                 ("seo", seo)] }
  else
    { template := "/src/pages/hello-node.hbs", params := [("seo", seo)] }

/-- `fastify.post("/hello-node")`, on the form field `color` of the request
body. -/
def postHelloNode (lower : CaseMapping) (seo : JsValue) (colors : JsObject)
    (color : Option String) : Reply :=
  if fieldTruthy color then
    let original := color.getD ""
    let normalized := normalize lower original
    if (getProperty colors normalized).truthy then
      { template := "/src/pages/index.hbs",
        params := [("color", getProperty colors normalized), ("colorError", .null),
                   ("seo", seo)] }
    else
      { template := "/src/pages/index.hbs",
        params := [("colorError", .string original), ("seo", seo)] }
  else
    { template := "/src/pages/index.hbs", params := [("seo", seo)] }

/-! ## The fields of a rendering context -/

/-- Exactly one of the members `a` and `b` of a context is non-null. -/
def exactlyOneNonNull (params : JsObject) (a b : String) : Bool :=
  xor (field params a).nonNull (field params b).nonNull

/-- Both members `a` and `b` of a context are non-null. -/
def bothNonNull (params : JsObject) (a b : String) : Bool :=
  (field params a).nonNull && (field params b).nonNull

/-! ## Sample data -/

/-- A site-metadata record of the shape of `src/seo.json`. -/
def sampleSeo : JsValue :=
  .object [ ("title", .string "Kaomoji generator"),
            ("description", .string "Turn a short sentence into a kaomoji"),
            ("url", .string "https://kaomoji.example") ]

/-- A colour table of the shape of `src/colors.json`. -/
def sampleColors : JsObject :=
  [ ("red", .string "#ff0000"),
    ("skyblue", .string "#87ceeb"),
    ("white", .string "#ffffff") ]

/-- A colour table with nine keys. -/
def nineColors : JsObject :=
  [ ("red", .string "#ff0000"),
    ("orange", .string "#ffa500"),
    ("yellow", .string "#ffff00"),
    ("green", .string "#008000"),
    ("blue", .string "#0000ff"),
    ("indigo", .string "#4b0082"),
    ("violet", .string "#ee82ee"),
    ("black", .string "#000000"),
    ("white", .string "#ffffff") ]

/-- The double `2001599834386887 * 2^(-52)`, just below `4/9`. -/
def belowFourNinths : ℚ :=
  2001599834386887 / 2 ^ 52

/-- A completion client that answers every request with two candidates. -/
def happyClient : CompletionClient :=
  fun _ => .ok { data := { choices := some [{ text := some "(^▽^)" },
                                            { text := some "(T_T)" }] } }

/-- A completion client whose call is rejected. -/
def failingClient : CompletionClient :=
  fun _ => .error "Request failed with status code 429"

/-- A completion client that answers with an empty list of candidates. -/
def emptyClient : CompletionClient :=
  fun _ => .ok { data := { choices := some [] } }

/-! ## Shared lemmas -/

theorem fieldTruthy_some (s : String) (h : s ≠ "") : fieldTruthy (some s) = true := by
  simp [fieldTruthy, h]

theorem generateKaomoji_requests (openai : CompletionClient) (word : String) :
    (generateKaomoji openai word).1 = [completionRequest word] := by
  unfold generateKaomoji
  cases h : openai (completionRequest word) with
  | error e => simp [h]
  | ok resp =>
    cases hc : resp.data.choices with
    | none => simp [h, hc]
    | some cs => cases cs <;> simp [h, hc]

theorem generateKaomoji_of_reject (openai : CompletionClient) (word e : String)
    (h : openai (completionRequest word) = .error e) :
    (generateKaomoji openai word).2 = .error e := by
  simp [generateKaomoji, h]

theorem generateKaomoji_of_no_choice (openai : CompletionClient) (word : String)
    (resp : CompletionResponse) (h : openai (completionRequest word) = .ok resp)
    (hc : resp.data.choices = none ∨ resp.data.choices = some []) :
    (generateKaomoji openai word).2 = .error "No kaomoji generated." := by
  rcases hc with hc | hc <;> simp [generateKaomoji, h, hc]

theorem generateKaomoji_of_choice (openai : CompletionClient) (word : String)
    (resp : CompletionResponse) (first : Choice) (rest : List Choice)
    (h : openai (completionRequest word) = .ok resp)
    (hc : resp.data.choices = some (first :: rest)) :
    (generateKaomoji openai word).2 = .ok first.textValue := by
  simp [generateKaomoji, h, hc]

theorem postIndex_reply_of_error (seo : JsValue) (openai : CompletionClient)
    (word e : String) (hword : word ≠ "")
    (h : (generateKaomoji openai word).2 = .error e) :
    (postIndex seo openai (some word)).reply =
      some { template := "/src/pages/index.hbs",
             params := [("kaomoji", .null), ("word", .string word), ("error", .bool true),
                        ("seo", seo)] } := by
  unfold postIndex
  rw [if_pos (fieldTruthy_some word hword)]
  rcases hg : generateKaomoji openai word with ⟨sent, res⟩
  rw [hg] at h
  cases res with
  | error e2 =>
    simp only [Except.error.injEq] at h
    simp [hg, h]
  | ok v => simp at h

theorem postIndex_reply_of_ok (seo : JsValue) (openai : CompletionClient)
    (word : String) (v : JsValue) (hword : word ≠ "")
    (h : (generateKaomoji openai word).2 = .ok v) :
    (postIndex seo openai (some word)).reply =
      some { template := "/src/pages/index.hbs",
             params := [("kaomoji", v), ("word", .null), ("error", .bool false),
                        ("seo", seo)] } := by
  unfold postIndex
  rw [if_pos (fieldTruthy_some word hword)]
  rcases hg : generateKaomoji openai word with ⟨sent, res⟩
  rw [hg] at h
  cases res with
  | error e2 => simp at h
  | ok v2 =>
    simp only [Except.ok.injEq] at h
    simp [hg, h]

/-! ## The generation route -/

/-- C1, as the code behaves: for a `word` field that is absent or the empty
string, `POST /` sends no request to the completion client, logs nothing and
ends without rendering any view, so no context (not even the pass-through
`{seo}`) reaches the renderer. -/
theorem postIndex_empty_word_renders_nothing (seo : JsValue) (openai : CompletionClient) :
    postIndex seo openai none = { requests := [], logged := [], reply := none } ∧
    postIndex seo openai (some "") = { requests := [], logged := [], reply := none } := by
  constructor <;> simp [postIndex, fieldTruthy]

/-- C2: for a non-empty `word`, when the completion call is rejected, or
resolves to a response whose `choices` is missing or empty, `POST /` still
renders the index template, with the context
`{kaomoji: null, word: <the word>, error: true, seo}`. -/
theorem postIndex_failure_renders_error (seo : JsValue) (openai : CompletionClient)
    (word : String) (hword : word ≠ "")
    (hfail : (∃ e, openai (completionRequest word) = .error e) ∨
      (∃ resp, openai (completionRequest word) = .ok resp ∧
        (resp.data.choices = none ∨ resp.data.choices = some []))) :
    (postIndex seo openai (some word)).reply =
      some { template := "/src/pages/index.hbs",
             params := [("kaomoji", .null), ("word", .string word), ("error", .bool true),
                        ("seo", seo)] } := by
  rcases hfail with ⟨e, he⟩ | ⟨resp, hresp, hc⟩
  · exact postIndex_reply_of_error seo openai word e hword
      (generateKaomoji_of_reject openai word e he)
  · exact postIndex_reply_of_error seo openai word _ hword
      (generateKaomoji_of_no_choice openai word resp hresp hc)

/-- Witness of C2: the word "I am happy" with a client whose call is rejected,
and with a client that answers with no candidate. -/
theorem postIndex_failure_renders_error_witness :
    "I am happy" ≠ "" ∧
    (postIndex sampleSeo failingClient (some "I am happy")).reply =
      some { template := "/src/pages/index.hbs",
             params := [("kaomoji", .null), ("word", .string "I am happy"),
                        ("error", .bool true), ("seo", sampleSeo)] } ∧
    (postIndex sampleSeo emptyClient (some "I am happy")).reply =
      some { template := "/src/pages/index.hbs",
             params := [("kaomoji", .null), ("word", .string "I am happy"),
                        ("error", .bool true), ("seo", sampleSeo)] } :=
  ⟨by decide,
   postIndex_failure_renders_error sampleSeo failingClient "I am happy" (by decide)
     (Or.inl ⟨"Request failed with status code 429", rfl⟩),
   postIndex_failure_renders_error sampleSeo emptyClient "I am happy" (by decide)
     (Or.inr ⟨{ data := { choices := some [] } }, rfl, Or.inr rfl⟩)⟩

/-- C3: for a non-empty `word` and a response with at least one candidate,
whatever follows the first one: when the first candidate has the text `t`,
`generateKaomoji` returns exactly `t` and `POST /` renders the index template
with `{kaomoji: t, word: null, error: false, seo}`; when the first candidate
has no `text` member, the value returned and rendered is `undefined`. -/
theorem postIndex_success_renders_first_candidate (seo : JsValue)
    (openai : CompletionClient) (word : String) (hword : word ≠ "")
    (resp : CompletionResponse) (first : Choice) (rest : List Choice)
    (hresp : openai (completionRequest word) = .ok resp)
    (hchoices : resp.data.choices = some (first :: rest)) :
    (∀ t, first.text = some t →
      (generateKaomoji openai word).2 = .ok (.string t) ∧
      (postIndex seo openai (some word)).reply =
        some { template := "/src/pages/index.hbs",
               params := [("kaomoji", .string t), ("word", .null),
                          ("error", .bool false), ("seo", seo)] }) ∧
    (first.text = none →
      (generateKaomoji openai word).2 = .ok .undefined ∧
      (postIndex seo openai (some word)).reply =
        some { template := "/src/pages/index.hbs",
               params := [("kaomoji", .undefined), ("word", .null),
                          ("error", .bool false), ("seo", seo)] }) := by
  have hgen := generateKaomoji_of_choice openai word resp first rest hresp hchoices
  constructor
  · intro t ht
    have hv : first.textValue = .string t := by simp [Choice.textValue, ht]
    rw [hv] at hgen
    exact ⟨hgen, postIndex_reply_of_ok seo openai word _ hword hgen⟩
  · intro ht
    have hv : first.textValue = .undefined := by simp [Choice.textValue, ht]
    rw [hv] at hgen
    exact ⟨hgen, postIndex_reply_of_ok seo openai word _ hword hgen⟩

/-- Witness of C3: the word "I am happy" with a client that returns the
candidates "(^▽^)" and "(T_T)", in that order. -/
theorem postIndex_success_renders_first_candidate_witness :
    "I am happy" ≠ "" ∧
    (generateKaomoji happyClient "I am happy").2 = .ok (.string "(^▽^)") ∧
    (postIndex sampleSeo happyClient (some "I am happy")).reply =
      some { template := "/src/pages/index.hbs",
             params := [("kaomoji", .string "(^▽^)"), ("word", .null),
                        ("error", .bool false), ("seo", sampleSeo)] } :=
  ⟨by decide,
   (postIndex_success_renders_first_candidate sampleSeo happyClient "I am happy" (by decide)
     { data := { choices := some [{ text := some "(^▽^)" }, { text := some "(T_T)" }] } }
     { text := some "(^▽^)" } [{ text := some "(T_T)" }] rfl rfl).1 "(^▽^)" rfl⟩

/-- C8, as the code behaves: for every word, `generateKaomoji` sends exactly
one request, whose members are `model`, `prompt` (the prompt embedding the
word) and `temperature` (0.8); the request has no member for an output-length
cap, and the value 100 bound to `maxTokens` is not part of it. -/
theorem generateKaomoji_request_has_no_length_cap (openai : CompletionClient)
    (word : String) :
    (generateKaomoji openai word).1 =
      [[ ("model", .string "text-davinci-003"),
         ("prompt", .string
            ("You are given a sentence with a maximum of 4 words: \"" ++ word ++
             "\". Generate a kaomoji withou emoji or emoticon to express the sentiment of the sentence or something related to the action of the verb. Don't use words only the Kaomoji.")),
         ("temperature", .number (8 / 10)) ]] ∧
    (generateKaomoji openai word).1.map objectKeys = [["model", "prompt", "temperature"]] ∧
    ((generateKaomoji openai word).1.map fun r => ownProperty r "max_tokens") = [none] := by
  rw [generateKaomoji_requests]
  refine ⟨rfl, rfl, ?_⟩
  simp [completionRequest, ownProperty, List.lookup]

/-! ## Normalisation -/

theorem toNat_ofNat_of_small (n : Nat) (h : n < 0xd800) : (Char.ofNat n).toNat = n := by
  have hv : n.isValidChar := Or.inl h
  unfold Char.ofNat
  rw [dif_pos hv]
  simp [Char.ofNatAux, Char.toNat, UInt32.toNat, BitVec.toNat_ofNatLt]

theorem toLower_toLower (c : Char) : c.toLower.toLower = c.toLower := by
  unfold Char.toLower
  simp only []
  by_cases h : c.toNat ≥ 65 ∧ c.toNat ≤ 90
  · rw [if_pos h, toNat_ofNat_of_small _ (by omega)]
    rw [if_neg (by omega)]
  · rw [if_neg h, if_neg h]

theorem asciiLower_fixed (before after : List Char) (c d : Char)
    (h : d ∈ asciiLower before c after) (before2 after2 : List Char) :
    asciiLower before2 d after2 = [d] := by
  simp only [asciiLower, List.mem_singleton] at h
  subst h
  simp [asciiLower, toLower_toLower]

theorem lowerFrom_of_fixed (lower : CaseMapping) (l : List Char)
    (h : ∀ d ∈ l, ∀ before after, lower before d after = [d]) (before : List Char) :
    lowerFrom lower before l = l := by
  induction l generalizing before with
  | nil => rfl
  | cons a t ih =>
    have ht : ∀ d ∈ t, ∀ before after, lower before d after = [d] :=
      fun d hd => h d (List.mem_cons_of_mem a hd)
    rw [lowerFrom, h a (List.mem_cons_self a t), ih ht]
    rfl

theorem mem_lowerFrom (lower : CaseMapping) (l : List Char) (before : List Char) (d : Char)
    (h : d ∈ lowerFrom lower before l) : ∃ pre c post, d ∈ lower pre c post := by
  induction l generalizing before with
  | nil => simp [lowerFrom] at h
  | cons a t ih =>
    rw [lowerFrom, List.mem_append] at h
    rcases h with h | h
    · exact ⟨before, a, t, h⟩
    · exact ih _ h

theorem normalize_data (lower : CaseMapping) (s : String) :
    (normalize lower s).data =
      (lowerFrom lower [] s.data).filter (fun c => !isWhiteSpace c) := rfl

theorem normalize_chars_fixed (lower : CaseMapping)
    (hfixed : ∀ pre c post d, d ∈ lower pre c post → ∀ pre2 post2, lower pre2 d post2 = [d])
    (s : String) :
    ∀ d ∈ (normalize lower s).data, ∀ before after, lower before d after = [d] := by
  intro d hd
  rw [normalize_data] at hd
  obtain ⟨pre, c, post, hc⟩ := mem_lowerFrom lower _ _ d (List.mem_of_mem_filter hd)
  exact hfixed pre c post d hc

/-- C6: for a lower-case mapping whose images are themselves left unchanged by
it wherever they stand, and which lowers ASCII letters as usual (as the
runtime's mapping does), the normalisation `toLowerCase` then
`replace(/\s/g, "")` is idempotent, its result holds no white-space character,
and it sends "  Red " to "red". -/
theorem normalize_idempotent (lower : CaseMapping)
    (hfixed : ∀ pre c post d, d ∈ lower pre c post → ∀ pre2 post2, lower pre2 d post2 = [d])
    (hascii : ∀ pre (c : Char) post, c.toNat < 128 → lower pre c post = [c.toLower]) :
    (∀ s, normalize lower (normalize lower s) = normalize lower s) ∧
    (∀ s c, c ∈ (normalize lower s).data → isWhiteSpace c = false) ∧
    normalize lower "  Red " = "red" := by
  refine ⟨?_, ?_, ?_⟩
  · intro s
    have hfix := lowerFrom_of_fixed lower _ (normalize_chars_fixed lower hfixed s) []
    have hdata : (normalize lower (normalize lower s)).data = (normalize lower s).data := by
      rw [normalize_data lower (normalize lower s), hfix, normalize_data, List.filter_filter]
      simp
    exact String.ext hdata
  · intro s c hc
    rw [normalize_data] at hc
    simpa using (List.mem_filter.1 hc).2
  · apply String.ext
    rw [normalize_data]
    simp only [String.data, lowerFrom, hascii _ ' ' _ (by decide), hascii _ 'R' _ (by decide),
      hascii _ 'e' _ (by decide), hascii _ 'd' _ (by decide)]
    decide

/-- Witness of C6: the ASCII lower-case mapping. -/
theorem normalize_idempotent_witness :
    normalize asciiLower (normalize asciiLower "Sky  BLUE") = normalize asciiLower "Sky  BLUE" ∧
    normalize asciiLower "  Red " = "red" :=
  have h := normalize_idempotent asciiLower
    (fun pre c post d hd pre2 post2 => asciiLower_fixed pre post c d hd pre2 post2)
    (fun _ _ _ _ => rfl)
  ⟨h.1 "Sky  BLUE", h.2.2⟩

/-! ## Property reads -/

theorem getProperty_of_own (o : JsObject) (key : String) (v : JsValue)
    (h : ownProperty o key = some v) : getProperty o key = v := by
  simp [getProperty, h]

theorem getProperty_of_absent (o : JsObject) (key : String)
    (h : ownProperty o key = none) (hproto : ownProperty objectPrototype key = none) :
    getProperty o key = .undefined := by
  simp [getProperty, h, hproto]

theorem ownProperty_mem (o : JsObject) (key : String) (v : JsValue)
    (h : ownProperty o key = some v) : (key, v) ∈ o := by
  obtain ⟨l₁, l₂, hl, _⟩ := List.lookup_eq_some_iff.1 h
  rw [hl]
  simp

theorem ownProperty_of_key (o : JsObject) (key : String) (h : key ∈ objectKeys o) :
    ∃ v, ownProperty o key = some v := by
  have hsome : (List.lookup key o).isSome = true := by
    rw [List.lookup_isSome_iff]
    obtain ⟨p, hp, hk⟩ := List.mem_map.1 h
    exact ⟨p, hp, by simp [hk]⟩
  exact Option.isSome_iff_exists.1 hsome

/-! ## Doubles -/

theorem roundHalfEven_cases (y : ℚ) : roundHalfEven y = ⌊y⌋ ∨ roundHalfEven y = ⌊y⌋ + 1 := by
  unfold roundHalfEven
  simp only []
  split_ifs <;> simp

theorem roundHalfEven_le_add_half (y : ℚ) : (roundHalfEven y : ℚ) ≤ y + 1 / 2 := by
  unfold roundHalfEven
  simp only []
  have h1 := Int.floor_le y
  have h2 := Int.lt_floor_add_one y
  split_ifs with ha hb hc
  · linarith
  · push_cast; linarith
  · linarith
  · push_cast; linarith

theorem le_roundHalfEven (y : ℚ) (i : Int) (h : (i : ℚ) ≤ y) : i ≤ roundHalfEven y := by
  have hf : i ≤ ⌊y⌋ := Int.le_floor.2 h
  rcases roundHalfEven_cases y with hc | hc <;> omega

theorem roundHalfEven_le (y : ℚ) (i : Int) (h : y ≤ (i : ℚ)) : roundHalfEven y ≤ i := by
  rcases eq_or_lt_of_le h with heq | hlt
  · subst heq
    unfold roundHalfEven
    simp
  · have hf : ⌊y⌋ < i := Int.floor_lt.2 hlt
    rcases roundHalfEven_cases y with hc | hc <;> omega

theorem roundHalfEven_intCast (n : Int) : roundHalfEven (n : ℚ) = n := by
  unfold roundHalfEven
  simp

theorem roundHalfEven_of_tie (y : ℚ) (f : Int) (hy : y = (f : ℚ) + 1 / 2) (hodd : f % 2 = 1) :
    roundHalfEven y = f + 1 := by
  have hf : ⌊y⌋ = f := by
    rw [Int.floor_eq_iff, hy]
    constructor <;> linarith
  unfold roundHalfEven
  simp only [hf]
  have hfrac : y - (f : ℚ) = 1 / 2 := by rw [hy]; ring
  rw [hfrac, if_neg (lt_irrefl _), if_neg (lt_irrefl _), if_neg (by omega)]

theorem doubleSpacing_pos (x : ℚ) : 0 < doubleSpacing x := by
  unfold doubleSpacing
  positivity

theorem log_le_of_lt (x : ℚ) (h0 : 0 ≤ x) (e : Int) (he : 0 ≤ e) (h : x < (2 : ℚ) ^ (e + 1)) :
    Int.log 2 x ≤ e := by
  rcases eq_or_lt_of_le h0 with hz | hpos
  · rw [← hz, Int.log_zero_right]; exact he
  · have := (Int.lt_zpow_iff_log_lt (R := ℚ) (b := 2) (by norm_num) hpos).1
      (by exact_mod_cast h)
    omega

theorem log_eq_of_bounds (x : ℚ) (e : Int) (hlo : (2 : ℚ) ^ e ≤ x) (hhi : x < (2 : ℚ) ^ (e + 1)) :
    Int.log 2 x = e := by
  have hpos : 0 < x := lt_of_lt_of_le (by positivity) hlo
  have h1 := (Int.zpow_le_iff_le_log (R := ℚ) (b := 2) (by norm_num) hpos).1
    (by exact_mod_cast hlo)
  have h2 := (Int.lt_zpow_iff_log_lt (R := ℚ) (b := 2) (by norm_num) hpos).1
    (by exact_mod_cast hhi)
  omega

theorem doubleSpacing_of_bounds (x : ℚ) (e : Int) (he : -1022 ≤ e) (hlo : (2 : ℚ) ^ e ≤ x)
    (hhi : x < (2 : ℚ) ^ (e + 1)) : doubleSpacing x = (2 : ℚ) ^ (e - 52) := by
  have hpos : 0 < x := lt_of_lt_of_le (by positivity) hlo
  unfold doubleSpacing
  rw [abs_of_pos hpos, log_eq_of_bounds x e hlo hhi, max_eq_left he]

theorem roundDouble_of_bounds (x : ℚ) (e n : Int) (he : -1022 ≤ e) (hlo : (2 : ℚ) ^ e ≤ x)
    (hhi : x < (2 : ℚ) ^ (e + 1)) (hn : roundHalfEven (x / (2 : ℚ) ^ (e - 52)) = n) :
    roundDouble x = (n : ℚ) * (2 : ℚ) ^ (e - 52) := by
  unfold roundDouble
  rw [doubleSpacing_of_bounds x e he hlo hhi, hn]

/-- For `0 ≤ x < 2^53` the spacing is the inverse of a power of two. -/
theorem doubleSpacing_inv (x : ℚ) (h0 : 0 ≤ x) (h : x < 2 ^ 53) :
    ∃ k : Nat, doubleSpacing x * 2 ^ k = 1 := by
  have hlog : Int.log 2 x ≤ 52 := log_le_of_lt x h0 52 (by norm_num) (by norm_num; linarith)
  have hm : max (Int.log 2 x) (-1022) - 52 ≤ 0 := by omega
  refine ⟨(-(max (Int.log 2 x) (-1022) - 52)).toNat, ?_⟩
  unfold doubleSpacing
  rw [abs_of_nonneg h0, ← zpow_natCast, ← zpow_add₀ (by norm_num)]
  have : max (Int.log 2 x) (-1022) - 52 + ((-(max (Int.log 2 x) (-1022) - 52)).toNat : Int) = 0 := by
    omega
  rw [this, zpow_zero]

/-- Rounding does not cross an integer: for `0 ≤ x < 2^53` and an integer `i`,
`i ≤ x` gives `i ≤ roundDouble x`, and `x ≤ i` gives `roundDouble x ≤ i`. -/
theorem roundDouble_bounds (x : ℚ) (h0 : 0 ≤ x) (h : x < 2 ^ 53) (i : Int) :
    ((i : ℚ) ≤ x → (i : ℚ) ≤ roundDouble x) ∧ (x ≤ (i : ℚ) → roundDouble x ≤ (i : ℚ)) := by
  obtain ⟨k, hk⟩ := doubleSpacing_inv x h0 h
  have hq := doubleSpacing_pos x
  have hi : (i : ℚ) = ((i * 2 ^ k : Int) : ℚ) * doubleSpacing x := by
    push_cast
    rw [mul_assoc, mul_comm ((2 : ℚ) ^ k), hk, mul_one]
  have hdiv : ((i * 2 ^ k : Int) : ℚ) = (i : ℚ) / doubleSpacing x := by
    rw [eq_div_iff hq.ne']
    exact hi.symm
  constructor
  · intro hx
    have : (i * 2 ^ k : Int) ≤ roundHalfEven (x / doubleSpacing x) :=
      le_roundHalfEven _ _ (by rw [hdiv]; exact div_le_div_of_nonneg_right hx hq.le)
    unfold roundDouble
    rw [hi]
    exact mul_le_mul_of_nonneg_right (by exact_mod_cast this) hq.le
  · intro hx
    have : roundHalfEven (x / doubleSpacing x) ≤ (i * 2 ^ k : Int) :=
      roundHalfEven_le _ _ (by rw [hdiv]; exact div_le_div_of_nonneg_right hx hq.le)
    unfold roundDouble
    rw [hi]
    exact mul_le_mul_of_nonneg_right (by exact_mod_cast this) hq.le

theorem roundDouble_le_add (x : ℚ) : roundDouble x ≤ x + doubleSpacing x / 2 := by
  have hq := doubleSpacing_pos x
  have h := roundHalfEven_le_add_half (x / doubleSpacing x)
  unfold roundDouble
  calc (roundHalfEven (x / doubleSpacing x) : ℚ) * doubleSpacing x
      ≤ (x / doubleSpacing x + 1 / 2) * doubleSpacing x :=
        mul_le_mul_of_nonneg_right h hq.le
    _ = x + doubleSpacing x / 2 := by field_simp; ring

/-- A double below 1 is at most `1 - 2^(-53)`. -/
theorem double_lt_one (r : ℚ) (hr : roundDouble r = r) (h1 : r < 1) :
    r ≤ 1 - 1 / 2 ^ 53 := by
  by_cases hhalf : r < 1 / 2
  · have : (1 : ℚ) / 2 ^ 53 ≤ 1 / 2 := by norm_num
    linarith
  · have hlo : (2 : ℚ) ^ (-1 : Int) ≤ r := by
      rw [zpow_neg_one]; norm_num; linarith
    have hq : doubleSpacing r = (2 : ℚ) ^ (-1 - 52 : Int) :=
      doubleSpacing_of_bounds r (-1) (by norm_num) hlo (by norm_num; exact h1)
    have hq2 : doubleSpacing r = 1 / 2 ^ 53 := by
      rw [hq]; norm_num [zpow_neg]
    unfold roundDouble at hr
    rw [hq2] at hr
    set n := roundHalfEven (r / (1 / 2 ^ 53)) with hn
    have hlt : (n : ℚ) < 2 ^ 53 := by
      have : (n : ℚ) * (1 / 2 ^ 53) < 1 := by rw [hr]; exact h1
      have h2 : (0 : ℚ) < 2 ^ 53 := by positivity
      rw [mul_one_div, div_lt_one h2] at this
      exact this
    have hle : n ≤ 2 ^ 53 - 1 := by
      have : n < 2 ^ 53 := by exact_mod_cast hlt
      omega
    have hle2 : (n : ℚ) ≤ 2 ^ 53 - 1 := by exact_mod_cast hle
    rw [← hr]
    have h2 : (0 : ℚ) < 1 / 2 ^ 53 := by positivity
    calc (n : ℚ) * (1 / 2 ^ 53) ≤ (2 ^ 53 - 1) * (1 / 2 ^ 53) :=
          mul_le_mul_of_nonneg_right hle2 h2.le
      _ = 1 - 1 / 2 ^ 53 := by norm_num

/-- The double product of a positive integer and a double in `[0, 1)` is below
the integer. -/
theorem roundDouble_mul_lt (n : Nat) (r : ℚ) (hn : 1 ≤ n) (hr : roundDouble r = r)
    (h0 : 0 ≤ r) (h1 : r < 1) : roundDouble ((n : ℚ) * r) < n := by
  have hn1 : (1 : ℚ) ≤ n := by exact_mod_cast hn
  have hr1 := double_lt_one r hr h1
  have hx0 : 0 ≤ (n : ℚ) * r := mul_nonneg (by linarith) h0
  have hx : (n : ℚ) * r ≤ n * (1 - 1 / 2 ^ 53) :=
    mul_le_mul_of_nonneg_left hr1 (by linarith)
  have hup := roundDouble_le_add ((n : ℚ) * r)
  rcases eq_or_lt_of_le hx0 with hz | hpos
  · rw [← hz]
    have : roundDouble 0 = 0 := by simp [roundDouble, roundHalfEven]
    rw [this]; linarith
  · by_cases hlog : -1022 ≤ Int.log 2 ((n : ℚ) * r)
    · have hq : doubleSpacing ((n : ℚ) * r) ≤ (n : ℚ) * r * (1 / 2 ^ 52) := by
        unfold doubleSpacing
        rw [abs_of_pos hpos, max_eq_left hlog, zpow_sub₀ (by norm_num), div_eq_mul_one_div]
        have hz := Int.zpow_log_le_self (R := ℚ) (b := 2) (by norm_num) hpos
        have hz2 : (2 : ℚ) ^ Int.log 2 ((n : ℚ) * r) ≤ (n : ℚ) * r := by exact_mod_cast hz
        have h52 : (1 : ℚ) / 2 ^ (52 : Int) = 1 / 2 ^ 52 := by norm_num
        rw [h52]
        exact mul_le_mul_of_nonneg_right hz2 (by positivity)
      have hsum : (n : ℚ) * r + doubleSpacing ((n : ℚ) * r) / 2
          ≤ (n : ℚ) * r * (1 + 1 / 2 ^ 53) := by
        have : (n : ℚ) * r * (1 + 1 / 2 ^ 53) = (n : ℚ) * r + (n : ℚ) * r * (1 / 2 ^ 52) / 2 := by
          ring
        rw [this]; linarith
      have hfin : (n : ℚ) * r * (1 + 1 / 2 ^ 53) < n := by
        calc (n : ℚ) * r * (1 + 1 / 2 ^ 53)
            ≤ n * (1 - 1 / 2 ^ 53) * (1 + 1 / 2 ^ 53) :=
              mul_le_mul_of_nonneg_right hx (by positivity)
          _ = n * (1 - 1 / 2 ^ 106) := by ring
          _ < n * 1 := by
              apply mul_lt_mul_of_pos_left _ (by linarith)
              norm_num
          _ = n := mul_one _
      linarith
    · have hlog2 : Int.log 2 ((n : ℚ) * r) + 1 ≤ -1022 := by omega
      have hlt := Int.lt_zpow_succ_log_self (R := ℚ) (b := 2) (by norm_num) ((n : ℚ) * r)
      have hlt2 : (n : ℚ) * r < (2 : ℚ) ^ (Int.log 2 ((n : ℚ) * r) + 1) := by exact_mod_cast hlt
      have hmono : (2 : ℚ) ^ (Int.log 2 ((n : ℚ) * r) + 1) ≤ (2 : ℚ) ^ (-1022 : Int) :=
        zpow_le_zpow_right₀ (by norm_num) hlog2
      have hq : doubleSpacing ((n : ℚ) * r) = (2 : ℚ) ^ (-1022 - 52 : Int) := by
        unfold doubleSpacing
        rw [abs_of_pos hpos, max_eq_right (by omega)]
      have hsmall : (2 : ℚ) ^ (-1022 : Int) ≤ 1 / 4 := by
        have : (2 : ℚ) ^ (-1022 : Int) ≤ (2 : ℚ) ^ (-2 : Int) :=
          zpow_le_zpow_right₀ (by norm_num) (by norm_num)
        calc (2 : ℚ) ^ (-1022 : Int) ≤ (2 : ℚ) ^ (-2 : Int) := this
          _ = 1 / 4 := by norm_num [zpow_neg]
      have hsmall2 : (2 : ℚ) ^ (-1022 - 52 : Int) ≤ 1 / 4 := by
        have : (2 : ℚ) ^ (-1022 - 52 : Int) ≤ (2 : ℚ) ^ (-2 : Int) :=
          zpow_le_zpow_right₀ (by norm_num) (by norm_num)
        calc (2 : ℚ) ^ (-1022 - 52 : Int) ≤ (2 : ℚ) ^ (-2 : Int) := this
          _ = 1 / 4 := by norm_num [zpow_neg]
      rw [hq] at hup
      linarith

theorem isDouble_belowFourNinths : roundDouble belowFourNinths = belowFourNinths := by
  unfold belowFourNinths
  have h := roundDouble_of_bounds (2001599834386887 / 2 ^ 52) (-2) 8006399337547548
    (by norm_num) (by norm_num [zpow_neg]) (by norm_num [zpow_neg])
    (by
      have : (2001599834386887 / 2 ^ 52 : ℚ) / (2 : ℚ) ^ (-2 - 52 : Int)
          = ((8006399337547548 : Int) : ℚ) := by norm_num [zpow_neg]
      rw [this, roundHalfEven_intCast])
  rw [h]
  norm_num [zpow_neg]

theorem roundDouble_nine_belowFourNinths :
    roundDouble (((9 : Nat) : ℚ) * belowFourNinths) = 4 := by
  unfold belowFourNinths
  have h := roundDouble_of_bounds (((9 : Nat) : ℚ) * (2001599834386887 / 2 ^ 52)) 1
    9007199254740992
    (by norm_num) (by norm_num) (by norm_num)
    (by
      have := roundHalfEven_of_tie
        (((9 : Nat) : ℚ) * (2001599834386887 / 2 ^ 52) / (2 : ℚ) ^ (1 - 52 : Int))
        9007199254740991 (by norm_num [zpow_neg]) (by decide)
      rw [this]; norm_num)
  rw [h]
  norm_num [zpow_neg]

theorem isDouble_three_quarters : roundDouble (3 / 4) = 3 / 4 := by
  have h := roundDouble_of_bounds (3 / 4) (-1) 6755399441055744
    (by norm_num) (by norm_num [zpow_neg]) (by norm_num [zpow_neg])
    (by
      have : (3 / 4 : ℚ) / (2 : ℚ) ^ (-1 - 52 : Int)
          = ((6755399441055744 : Int) : ℚ) := by norm_num [zpow_neg]
      rw [this, roundHalfEven_intCast])
  rw [h]
  norm_num [zpow_neg]

/-! ## The random colour -/

theorem toInt32_of_small (x : ℚ) (h0 : 0 ≤ x) (h1 : x < 2 ^ 31) : toInt32 x = ⌊x⌋ := by
  have hf0 : (0 : Int) ≤ ⌊x⌋ := Int.floor_nonneg.2 h0
  have hf1 : ⌊x⌋ < (2 : Int) ^ 31 := by
    rw [Int.floor_lt]
    exact_mod_cast h1
  have hmod : ⌊x⌋ % (2 : Int) ^ 32 = ⌊x⌋ := Int.emod_eq_of_lt hf0 (by omega)
  unfold toInt32
  simp only [if_pos h0, hmod]
  rw [if_neg (by omega)]

theorem product_lt_pow (length : Nat) (random : ℚ) (hsize : 1 ≤ length)
    (hbound : length ≤ 2 ^ 31) (hhi : random < 1) : (length : ℚ) * random < 2 ^ 53 := by
  have hpos : (0 : ℚ) < length := by exact_mod_cast hsize
  have hle : (length : ℚ) ≤ 2 ^ 31 := by exact_mod_cast hbound
  calc (length : ℚ) * random < length * 1 := mul_lt_mul_of_pos_left hhi hpos
    _ ≤ 2 ^ 53 := by norm_num; linarith

theorem roundDouble_product_nonneg (length : Nat) (random : ℚ) (hsize : 1 ≤ length)
    (hbound : length ≤ 2 ^ 31) (hlo : 0 ≤ random) (hhi : random < 1) :
    0 ≤ roundDouble ((length : ℚ) * random) := by
  have hx0 : 0 ≤ (length : ℚ) * random := mul_nonneg (Nat.cast_nonneg length) hlo
  have h := (roundDouble_bounds _ hx0 (product_lt_pow length random hsize hbound hhi) 0).1
  simpa using h (by simpa using hx0)

theorem randomIndex_eq_floor (length : Nat) (random : ℚ) (hsize : 1 ≤ length)
    (hbound : length ≤ 2 ^ 31) (hdouble : roundDouble random = random)
    (hlo : 0 ≤ random) (hhi : random < 1) :
    randomIndex length random = ⌊roundDouble ((length : ℚ) * random)⌋ := by
  have hle : (length : ℚ) ≤ 2 ^ 31 := by exact_mod_cast hbound
  apply toInt32_of_small _ (roundDouble_product_nonneg length random hsize hbound hlo hhi)
  exact lt_of_lt_of_le (roundDouble_mul_lt length random hsize hdouble hlo hhi) hle


theorem nineColors_keys : (objectKeys nineColors).length = 9 := rfl

/-- C7, where it fails: for a table of nine colours and the double
`r = 2001599834386887 * 2^(-52)`, which is below `4/9`, the exact product
`9 * r` is `4 - 2^(-52)` with integer part 3, but the double product is `4`:
the handler reads index 4 and renders the fifth colour, although `r` is not
in `[4/9, 5/9)`. -/
theorem randomIndex_counterexample :
    isDouble belowFourNinths = true ∧ 0 ≤ belowFourNinths ∧ belowFourNinths < 1 ∧
    belowFourNinths < 4 / 9 ∧
    ⌊((9 : Nat) : ℚ) * belowFourNinths⌋ = 3 ∧
    roundDouble (((9 : Nat) : ℚ) * belowFourNinths) = 4 ∧
    randomIndex (objectKeys nineColors).length belowFourNinths = 4 ∧
    getHelloNode sampleSeo nineColors belowFourNinths (some "true") =
      { template := "/src/pages/hello-node.hbs",
        params := [("color", .string "#0000ff"), ("colorError", .null),
                   ("seo", sampleSeo)] } ∧
    ¬ (randomIndex (objectKeys nineColors).length belowFourNinths = (4 : Nat) ↔
        ((4 : Nat) : ℚ) / (9 : Nat) ≤ belowFourNinths ∧
        belowFourNinths < (((4 : Nat) : ℚ) + 1) / (9 : Nat)) := by
  have hidx : randomIndex (objectKeys nineColors).length belowFourNinths = 4 := by
    rw [nineColors_keys]
    unfold randomIndex
    rw [roundDouble_nine_belowFourNinths]
    unfold toInt32
    norm_num
  have hlt : belowFourNinths < 4 / 9 := by unfold belowFourNinths; norm_num
  refine ⟨by simp [isDouble, isDouble_belowFourNinths],
    by unfold belowFourNinths; norm_num, by unfold belowFourNinths; norm_num, hlt, ?_,
    roundDouble_nine_belowFourNinths, hidx, ?_, ?_⟩
  · rw [Int.floor_eq_iff]
    unfold belowFourNinths
    constructor <;> norm_num
  · unfold getHelloNode
    rw [if_pos (by decide)]
    simp only [hidx]
    rfl
  · intro h
    have h2 := (h.1 (by rw [hidx]; rfl)).1
    have : ((4 : Nat) : ℚ) / (9 : Nat) = 4 / 9 := by norm_num
    rw [this] at h2
    linarith

/-- C7, amended: with the randomize flag set, a store of `N` keys,
`1 ≤ N ≤ 2^31`, and a double `r` of the random source with `0 ≤ r < 1`: the
index `(N * r) << 0` is the integer part of the double product `N * r`, it
lies in `[0, N)`, the key read at it and the colour rendered are those of one
entry of the store, and index `i < N` is selected exactly when
`i / N ≤ r < (i + 1) / N`, an interval of length `1 / N`, except that an `r`
whose double product rounds up to an integer counts to the interval above:
`i` is selected exactly when `i / N ≤ r` or the double product is `i`, and
`r < (i + 1) / N` with the double product not `i + 1`. -/
theorem getHelloNode_random_selection (seo : JsValue) (colors : JsObject) (random : ℚ)
    (randomize : String) (hrandomize : randomize ≠ "")
    (hsize : 1 ≤ colors.length) (hbound : colors.length ≤ 2 ^ 31)
    (hdouble : isDouble random = true) (hlo : 0 ≤ random) (hhi : random < 1) :
    randomIndex colors.length random = ⌊roundDouble ((colors.length : ℚ) * random)⌋ ∧
    0 ≤ randomIndex colors.length random ∧
    randomIndex colors.length random < colors.length ∧
    (∃ entry ∈ colors,
      arrayGet (objectKeys colors) (randomIndex (objectKeys colors).length random)
        = some entry.1 ∧
      getHelloNode seo colors random (some randomize) =
        { template := "/src/pages/hello-node.hbs",
          params := [("color", entry.2), ("colorError", .null), ("seo", seo)] }) ∧
    (∀ i : Nat, i < colors.length →
      (randomIndex colors.length random = i ↔
        ((i : ℚ) / colors.length ≤ random ∨
          roundDouble ((colors.length : ℚ) * random) = i) ∧
        random < ((i : ℚ) + 1) / colors.length ∧
        roundDouble ((colors.length : ℚ) * random) ≠ (i : ℚ) + 1)) ∧
    (∀ i : Nat, ((i : ℚ) + 1) / colors.length - (i : ℚ) / colors.length
        = 1 / colors.length) := by
  have hd : roundDouble random = random := by simpa [isDouble] using hdouble
  have hidx := randomIndex_eq_floor colors.length random hsize hbound hd hlo hhi
  have hpos : (0 : ℚ) < colors.length := by exact_mod_cast hsize
  have hx0 : 0 ≤ (colors.length : ℚ) * random := mul_nonneg hpos.le hlo
  have hx53 := product_lt_pow colors.length random hsize hbound hhi
  have hp0 := roundDouble_product_nonneg colors.length random hsize hbound hlo hhi
  have hpN := roundDouble_mul_lt colors.length random hsize hd hlo hhi
  have hnonneg : (0 : Int) ≤ ⌊roundDouble ((colors.length : ℚ) * random)⌋ :=
    Int.floor_nonneg.2 hp0
  have hlt : ⌊roundDouble ((colors.length : ℚ) * random)⌋ < (colors.length : Int) := by
    rw [Int.floor_lt]
    simpa using hpN
  refine ⟨hidx, by rw [hidx]; exact hnonneg, by rw [hidx]; exact hlt, ?_, ?_, ?_⟩
  · have hlen : (objectKeys colors).length = colors.length := by simp [objectKeys]
    have hnat : (⌊roundDouble ((colors.length : ℚ) * random)⌋).toNat
        < (objectKeys colors).length := by
      rw [hlen]; omega
    have hget : arrayGet (objectKeys colors) (randomIndex (objectKeys colors).length random)
        = some ((objectKeys colors)[(⌊roundDouble ((colors.length : ℚ) * random)⌋).toNat]) := by
      rw [hlen, hidx]
      unfold arrayGet
      rw [if_pos hnonneg, List.getElem?_eq_getElem hnat]
    obtain ⟨v, hv⟩ := ownProperty_of_key colors _ (List.getElem_mem hnat)
    refine ⟨(_, v), ownProperty_mem colors _ v hv, hget, ?_⟩
    unfold getHelloNode
    rw [if_pos (fieldTruthy_some randomize hrandomize)]
    simp only [hget, getPropertyAt, getProperty_of_own colors _ v hv]
  · intro i _
    have hbi := roundDouble_bounds _ hx0 hx53 (i : Int)
    have hbs := roundDouble_bounds _ hx0 hx53 ((i : Int) + 1)
    have hci : ((i : Int) : ℚ) = (i : ℚ) := by simp
    have hcs : (((i : Int) + 1 : Int) : ℚ) = (i : ℚ) + 1 := by simp
    rw [hci] at hbi
    rw [hcs] at hbs
    rw [hidx, Int.floor_eq_iff, hci, div_le_iff₀ hpos, lt_div_iff₀ hpos]
    constructor
    · rintro ⟨h1, h2⟩
      refine ⟨?_, ?_, ne_of_lt h2⟩
      · by_cases hle : (i : ℚ) ≤ random * colors.length
        · exact Or.inl hle
        · right
          have hxle : (colors.length : ℚ) * random ≤ i := by linarith
          exact le_antisymm (hbi.2 hxle) h1
      · by_contra hge
        have hxge : (i : ℚ) + 1 ≤ (colors.length : ℚ) * random := by linarith
        have := hbs.1 hxge
        linarith
    · rintro ⟨h1, h2, h3⟩
      constructor
      · rcases h1 with h1 | h1
        · exact hbi.1 (by linarith)
        · exact h1.ge
      · have hxle : (colors.length : ℚ) * random ≤ (i : ℚ) + 1 := by linarith
        exact lt_of_le_of_ne (hbs.2 hxle) h3
  · intro i
    field_simp

/-- Witness of C7 amended: the three-colour table and the double 3/4, whose
product with 3 is the double 2.25, with integer part 2. -/
theorem getHelloNode_random_selection_witness :
    (isDouble (3 / 4) = true ∧ (0 : ℚ) ≤ 3 / 4 ∧ (3 / 4 : ℚ) < 1) ∧
    randomIndex sampleColors.length (3 / 4) =
      ⌊roundDouble ((sampleColors.length : ℚ) * (3 / 4))⌋ ∧
    randomIndex sampleColors.length (3 / 4) < sampleColors.length ∧
    (randomIndex sampleColors.length (3 / 4) = (2 : Nat) ↔
      (((2 : Nat) : ℚ) / sampleColors.length ≤ 3 / 4 ∨
        roundDouble ((sampleColors.length : ℚ) * (3 / 4)) = (2 : Nat)) ∧
      (3 / 4 : ℚ) < (((2 : Nat) : ℚ) + 1) / sampleColors.length ∧
      roundDouble ((sampleColors.length : ℚ) * (3 / 4)) ≠ ((2 : Nat) : ℚ) + 1) :=
  have hd : isDouble (3 / 4) = true := by simp [isDouble, isDouble_three_quarters]
  have h := getHelloNode_random_selection sampleSeo sampleColors (3 / 4) "true"
    (by decide) (by decide) (by decide) hd (by norm_num) (by norm_num)
  ⟨⟨hd, by norm_num, by norm_num⟩, h.1, h.2.2.1, h.2.2.2.2.1 2 (by decide)⟩

/-! ## The colour lookup -/

theorem postHelloNode_of_empty (lower : CaseMapping) (seo : JsValue)
    (colors : JsObject) (color : Option String) (h : fieldTruthy color = false) :
    postHelloNode lower seo colors color =
      { template := "/src/pages/index.hbs", params := [("seo", seo)] } := by
  simp [postHelloNode, h]

theorem postHelloNode_of_truthy (lower : CaseMapping) (seo : JsValue)
    (colors : JsObject) (color : String) (hcolor : color ≠ "")
    (h : (getProperty colors (normalize lower color)).truthy = true) :
    postHelloNode lower seo colors (some color) =
      { template := "/src/pages/index.hbs",
        params := [("color", getProperty colors (normalize lower color)),
                   ("colorError", .null), ("seo", seo)] } := by
  simp [postHelloNode, fieldTruthy_some color hcolor, h]

theorem postHelloNode_of_falsy (lower : CaseMapping) (seo : JsValue)
    (colors : JsObject) (color : String) (hcolor : color ≠ "")
    (h : (getProperty colors (normalize lower color)).truthy = false) :
    postHelloNode lower seo colors (some color) =
      { template := "/src/pages/index.hbs",
        params := [("colorError", .string color), ("seo", seo)] } := by
  simp [postHelloNode, fieldTruthy_some color hcolor, h]

/-- The miss outside the inherited names: a non-empty input whose normalised
form is neither a key of the store nor a member of `Object.prototype` gives
the context `{colorError: <the input>, seo}`, in which `color` is not set. -/
theorem postHelloNode_miss (lower : CaseMapping) (seo : JsValue)
    (colors : JsObject) (color : String) (hcolor : color ≠ "")
    (hown : ownProperty colors (normalize lower color) = none)
    (hproto : ownProperty objectPrototype (normalize lower color) = none) :
    postHelloNode lower seo colors (some color) =
      { template := "/src/pages/index.hbs",
        params := [("colorError", .string color), ("seo", seo)] } := by
  apply postHelloNode_of_falsy lower seo colors color hcolor
  rw [getProperty_of_absent colors _ hown hproto]
  rfl

theorem normalize_constructor : normalize asciiLower "constructor" = "constructor" := by
  decide

theorem normalize_sky_blue : normalize asciiLower "Sky Blue" = "skyblue" := by
  decide

/-- C4, as the code behaves on an inherited name: "constructor" is not a key
of the colour table, yet `POST /hello-node` takes the branch of a colour that
was found and renders `{color: <the built-in Object function>, colorError:
null, seo}` instead of `{color: null, colorError: "constructor"}`. -/
theorem postHelloNode_constructor_is_found (seo : JsValue) :
    ownProperty sampleColors (normalize asciiLower "constructor") = none ∧
    postHelloNode asciiLower seo sampleColors (some "constructor") =
      { template := "/src/pages/index.hbs",
        params := [("color", .native "Object"), ("colorError", .null), ("seo", seo)] } := by
  have hown : ownProperty sampleColors "constructor" = none := rfl
  have hget : getProperty sampleColors "constructor" = .native "Object" := rfl
  refine ⟨by rw [normalize_constructor]; exact hown, ?_⟩
  have h := postHelloNode_of_truthy asciiLower seo sampleColors "constructor" (by decide)
    (by rw [normalize_constructor, hget]; rfl)
  rw [normalize_constructor, hget] at h
  exact h

/-- C5, as the code behaves on a falsy entry: "skyblue" is a key of the table
`{"skyblue": ""}` and "Sky Blue" normalises to it, yet `POST /hello-node`
takes the branch of a colour that was not found and renders
`{colorError: "Sky Blue", seo}` instead of
`{color: <the entry>, colorError: null, seo}`. -/
theorem postHelloNode_empty_entry_is_missed (seo : JsValue) :
    ownProperty [("skyblue", .string "")] (normalize asciiLower "Sky Blue")
      = some (.string "") ∧
    postHelloNode asciiLower seo [("skyblue", .string "")] (some "Sky Blue") =
      { template := "/src/pages/index.hbs",
        params := [("colorError", .string "Sky Blue"), ("seo", seo)] } ∧
    postHelloNode asciiLower seo [("skyblue", .string "")] (some "Sky Blue") ≠
      { template := "/src/pages/index.hbs",
        params := [("color", .string ""), ("colorError", .null), ("seo", seo)] } := by
  have h1 : postHelloNode asciiLower seo [("skyblue", .string "")] (some "Sky Blue") =
      { template := "/src/pages/index.hbs",
        params := [("colorError", .string "Sky Blue"), ("seo", seo)] } :=
    postHelloNode_of_falsy asciiLower seo _ "Sky Blue" (by decide)
      (by rw [normalize_sky_blue]; rfl)
  refine ⟨by rw [normalize_sky_blue]; rfl, h1, ?_⟩
  rw [h1]
  simp

/-- The hit on a truthy entry: for a non-empty colour input whose normalised
form is a key of the store with a truthy entry, `POST /hello-node` renders
`{color: <that entry>, colorError: null, seo}`. -/
theorem postHelloNode_truthy_entry_is_found (lower : CaseMapping) (seo : JsValue)
    (colors : JsObject) (color : String) (entry : JsValue) (hcolor : color ≠ "")
    (hkey : ownProperty colors (normalize lower color) = some entry)
    (htruthy : entry.truthy = true) :
    postHelloNode lower seo colors (some color) =
      { template := "/src/pages/index.hbs",
        params := [("color", entry), ("colorError", .null), ("seo", seo)] } := by
  have hget := getProperty_of_own colors _ entry hkey
  have h := postHelloNode_of_truthy lower seo colors color hcolor (by rw [hget]; exact htruthy)
  rw [hget] at h
  exact h

/-- The scenario "Sky Blue" on a table with the key "skyblue". -/
theorem postHelloNode_sky_blue :
    postHelloNode asciiLower sampleSeo sampleColors (some "Sky Blue") =
      { template := "/src/pages/index.hbs",
        params := [("color", .string "#87ceeb"), ("colorError", .null),
                   ("seo", sampleSeo)] } :=
  postHelloNode_truthy_entry_is_found asciiLower sampleSeo sampleColors "Sky Blue"
    (.string "#87ceeb") (by decide) (by rw [normalize_sky_blue]; rfl) rfl

/-! ## The field pairs and `seo` -/

theorem nonNull_of_truthy (v : JsValue) (h : v.truthy = true) : v.nonNull = true := by
  cases v <;> simp_all [JsValue.truthy, JsValue.nonNull]

theorem generateKaomoji_ok_value (openai : CompletionClient) (word : String) (v : JsValue)
    (h : (generateKaomoji openai word).2 = .ok v) :
    v = .undefined ∨ ∃ t, v = .string t := by
  unfold generateKaomoji at h
  cases hr : openai (completionRequest word) with
  | error e => simp [hr] at h
  | ok resp =>
    cases hc : resp.data.choices with
    | none => simp [hr, hc] at h
    | some cs =>
      cases cs with
      | nil => simp [hr, hc] at h
      | cons first rest =>
        simp only [hr, hc, Except.ok.injEq] at h
        rw [← h]
        unfold Choice.textValue
        cases first.text with
        | none => exact Or.inl rfl
        | some t => exact Or.inr ⟨t, rfl⟩

theorem postIndex_reply_cases (seo : JsValue) (openai : CompletionClient)
    (word : Option String) (r : Reply) (h : (postIndex seo openai word).reply = some r) :
    (∃ v, r.params = [("kaomoji", v), ("word", .null), ("error", .bool false), ("seo", seo)]) ∨
    (∃ w, r.params = [("kaomoji", .null), ("word", .string w), ("error", .bool true),
                      ("seo", seo)]) := by
  unfold postIndex at h
  by_cases ht : fieldTruthy word = true
  · rw [if_pos ht] at h
    rcases hg : generateKaomoji openai (word.getD "") with ⟨sent, res⟩
    cases res with
    | ok v =>
      simp only [hg, Option.some.injEq] at h
      exact Or.inl ⟨v, by rw [← h]⟩
    | error e =>
      simp only [hg, Option.some.injEq] at h
      exact Or.inr ⟨word.getD "", by rw [← h]⟩
  · rw [if_neg ht] at h
    simp at h

theorem postHelloNode_params_cases (lower : CaseMapping) (seo : JsValue)
    (colors : JsObject) (color : Option String) :
    (∃ v, v.nonNull = true ∧ (postHelloNode lower seo colors color).params =
      [("color", v), ("colorError", .null), ("seo", seo)]) ∨
    (∃ w, (postHelloNode lower seo colors color).params =
      [("colorError", .string w), ("seo", seo)]) ∨
    (postHelloNode lower seo colors color).params = [("seo", seo)] := by
  by_cases ht : fieldTruthy color = true
  · cases color with
    | none => simp [fieldTruthy] at ht
    | some c =>
      have hc : c ≠ "" := by simpa [fieldTruthy] using ht
      by_cases hv : (getProperty colors (normalize lower c)).truthy = true
      · left
        exact ⟨_, nonNull_of_truthy _ hv,
          by rw [postHelloNode_of_truthy lower seo colors c hc hv]⟩
      · right; left
        exact ⟨c, by rw [postHelloNode_of_falsy lower seo colors c hc (by simpa using hv)]⟩
  · right; right
    rw [postHelloNode_of_empty lower seo colors color (by simpa using ht)]

theorem getHelloNode_of_set (seo : JsValue) (colors : JsObject) (random : ℚ)
    (randomize : Option String) (h : fieldTruthy randomize = true) :
    (getHelloNode seo colors random randomize).params =
      [("color", getPropertyAt colors
          (arrayGet (objectKeys colors) (randomIndex (objectKeys colors).length random))),
       ("colorError", .null), ("seo", seo)] := by
  simp [getHelloNode, h]

theorem getHelloNode_of_unset (seo : JsValue) (colors : JsObject) (random : ℚ)
    (randomize : Option String) (h : fieldTruthy randomize = false) :
    (getHelloNode seo colors random randomize).params = [("seo", seo)] := by
  simp [getHelloNode, h]

/-- C9, where it fails: for an empty `color` field `POST /hello-node` renders
`{seo}`, and so does `GET /hello-node` without the randomize flag; in that
context neither `color` nor `colorError` is set. -/
theorem exactly_one_counterexample :
    (postHelloNode asciiLower sampleSeo sampleColors (some "")).params = [("seo", sampleSeo)] ∧
    exactlyOneNonNull (postHelloNode asciiLower sampleSeo sampleColors (some "")).params
      "color" "colorError" = false ∧
    exactlyOneNonNull (getHelloNode sampleSeo sampleColors 0 none).params
      "color" "colorError" = false := by
  refine ⟨rfl, rfl, rfl⟩

/-- C9, amended: in every rendering context at most one member of each pair is
non-null (`kaomoji` and `word` on `POST /`, `color` and `colorError` on the
two `/hello-node` routes). Exactly one is non-null on `POST /` for a non-empty
word unless the first candidate has no text, on `POST /hello-node` for every
non-empty colour, and on `GET /hello-node` with the flag set when the entry
read from the store is non-null. With an empty or absent input the two
`/hello-node` routes render `{seo}`. -/
theorem context_pairs_at_most_one (lower : CaseMapping) (seo : JsValue)
    (colors : JsObject) (openai : CompletionClient) (random : ℚ) :
    (∀ word r, (postIndex seo openai word).reply = some r →
      bothNonNull r.params "kaomoji" "word" = false) ∧
    (∀ randomize,
      bothNonNull (getHelloNode seo colors random randomize).params "color" "colorError"
        = false) ∧
    (∀ color,
      bothNonNull (postHelloNode lower seo colors color).params "color" "colorError"
        = false) ∧
    (∀ word, word ≠ "" → (generateKaomoji openai word).2 ≠ .ok .undefined →
      ∃ r, (postIndex seo openai (some word)).reply = some r ∧
        exactlyOneNonNull r.params "kaomoji" "word" = true) ∧
    (∀ color, color ≠ "" →
      exactlyOneNonNull (postHelloNode lower seo colors (some color)).params
        "color" "colorError" = true) ∧
    (∀ randomize, randomize ≠ "" →
      exactlyOneNonNull (getHelloNode seo colors random (some randomize)).params
        "color" "colorError" =
      (getPropertyAt colors
        (arrayGet (objectKeys colors)
          (randomIndex (objectKeys colors).length random))).nonNull) ∧
    (∀ color, fieldTruthy color = false →
      (postHelloNode lower seo colors color).params = [("seo", seo)]) ∧
    (∀ randomize, fieldTruthy randomize = false →
      (getHelloNode seo colors random randomize).params = [("seo", seo)]) := by
  refine ⟨?_, ?_, ?_, ?_, ?_, ?_, ?_, ?_⟩
  · intro word r h
    rcases postIndex_reply_cases seo openai word r h with ⟨v, hv⟩ | ⟨w, hw⟩
    · rw [hv]
      simp [bothNonNull, field, ownProperty, List.lookup, JsValue.nonNull]
    · rw [hw]
      simp [bothNonNull, field, ownProperty, List.lookup, JsValue.nonNull]
  · intro randomize
    by_cases ht : fieldTruthy randomize = true
    · rw [getHelloNode_of_set seo colors random randomize ht]
      simp [bothNonNull, field, ownProperty, List.lookup, JsValue.nonNull]
    · rw [getHelloNode_of_unset seo colors random randomize (by simpa using ht)]
      simp [bothNonNull, field, ownProperty, List.lookup, JsValue.nonNull]
  · intro color
    rcases postHelloNode_params_cases lower seo colors color with ⟨v, _, hv⟩ | ⟨w, hw⟩ | h
    · rw [hv]
      simp [bothNonNull, field, ownProperty, List.lookup, JsValue.nonNull]
    · rw [hw]
      simp [bothNonNull, field, ownProperty, List.lookup, JsValue.nonNull]
    · rw [h]
      simp [bothNonNull, field, ownProperty, List.lookup, JsValue.nonNull]
  · intro word hword hdef
    cases hres : (generateKaomoji openai word).2 with
    | error e =>
      refine ⟨_, postIndex_reply_of_error seo openai word e hword hres, ?_⟩
      simp [exactlyOneNonNull, field, ownProperty, List.lookup, JsValue.nonNull]
    | ok v =>
      refine ⟨_, postIndex_reply_of_ok seo openai word v hword hres, ?_⟩
      rcases generateKaomoji_ok_value openai word v hres with hv | ⟨t, ht⟩
      · exact absurd (by rw [hres, hv]) hdef
      · subst ht
        simp [exactlyOneNonNull, field, ownProperty, List.lookup, JsValue.nonNull]
  · intro color hcolor
    by_cases hv : (getProperty colors (normalize lower color)).truthy = true
    · rw [postHelloNode_of_truthy lower seo colors color hcolor hv]
      have hn := nonNull_of_truthy _ hv
      generalize getProperty colors (normalize lower color) = v at hn
      cases v <;>
        simp_all [exactlyOneNonNull, field, ownProperty, List.lookup, JsValue.nonNull]
    · rw [postHelloNode_of_falsy lower seo colors color hcolor (by simpa using hv)]
      simp [exactlyOneNonNull, field, ownProperty, List.lookup, JsValue.nonNull]
  · intro randomize hrandomize
    rw [getHelloNode_of_set seo colors random (some randomize)
      (fieldTruthy_some randomize hrandomize)]
    simp [exactlyOneNonNull, field, ownProperty, List.lookup, JsValue.nonNull]
  · intro color h
    rw [postHelloNode_of_empty lower seo colors color h]
  · intro randomize h
    exact getHelloNode_of_unset seo colors random randomize h

/-- Witness of C9 amended: the colour "chartreuse9", which the table lacks,
and the word "I am happy" with a client that returns one candidate. -/
theorem context_pairs_at_most_one_witness :
    "chartreuse9" ≠ "" ∧
    exactlyOneNonNull (postHelloNode asciiLower sampleSeo sampleColors
      (some "chartreuse9")).params "color" "colorError" = true ∧
    bothNonNull
      [("kaomoji", .string "(^▽^)"), ("word", .null), ("error", .bool false),
       ("seo", sampleSeo)] "kaomoji" "word" = false :=
  have h := context_pairs_at_most_one asciiLower sampleSeo sampleColors happyClient 0
  ⟨by decide, h.2.2.2.2.1 "chartreuse9" (by decide),
   h.1 (some "I am happy")
     { template := "/src/pages/index.hbs",
       params := [("kaomoji", .string "(^▽^)"), ("word", .null), ("error", .bool false),
                  ("seo", sampleSeo)] } rfl⟩

/-- C10: every context that one of the four handlers passes to the view
renderer has the member `seo`, equal to the site-metadata record; `GET /`,
`GET /hello-node` and `POST /hello-node` render on every request, `POST /`
whenever it renders. -/
theorem every_rendered_context_has_seo (lower : CaseMapping) (seo : JsValue)
    (colors : JsObject) (openai : CompletionClient) (random : ℚ) :
    ownProperty (getIndex seo).params "seo" = some seo ∧
    (∀ word r, (postIndex seo openai word).reply = some r →
      ownProperty r.params "seo" = some seo) ∧
    (∀ randomize,
      ownProperty (getHelloNode seo colors random randomize).params "seo" = some seo) ∧
    (∀ color,
      ownProperty (postHelloNode lower seo colors color).params "seo" = some seo) := by
  refine ⟨rfl, ?_, ?_, ?_⟩
  · intro word r h
    rcases postIndex_reply_cases seo openai word r h with ⟨v, hv⟩ | ⟨w, hw⟩
    · rw [hv]; simp [ownProperty, List.lookup]
    · rw [hw]; simp [ownProperty, List.lookup]
  · intro randomize
    by_cases ht : fieldTruthy randomize = true
    · rw [getHelloNode_of_set seo colors random randomize ht]
      simp [ownProperty, List.lookup]
    · rw [getHelloNode_of_unset seo colors random randomize (by simpa using ht)]
      simp [ownProperty, List.lookup]
  · intro color
    rcases postHelloNode_params_cases lower seo colors color with ⟨v, _, hv⟩ | ⟨w, hw⟩ | h
    · rw [hv]; simp [ownProperty, List.lookup]
    · rw [hw]; simp [ownProperty, List.lookup]
    · rw [h]; simp [ownProperty, List.lookup]

/-- Witness of C10: the context rendered for the word "I am happy" when the
completion call is rejected. -/
theorem every_rendered_context_has_seo_witness :
    (postIndex sampleSeo failingClient (some "I am happy")).reply =
      some { template := "/src/pages/index.hbs",
             params := [("kaomoji", .null), ("word", .string "I am happy"),
                        ("error", .bool true), ("seo", sampleSeo)] } ∧
    ownProperty
      [("kaomoji", .null), ("word", .string "I am happy"), ("error", .bool true),
       ("seo", sampleSeo)] "seo" = some sampleSeo :=
  ⟨rfl,
   (every_rendered_context_has_seo asciiLower sampleSeo sampleColors failingClient 0).2.1
     (some "I am happy")
     { template := "/src/pages/index.hbs",
       params := [("kaomoji", .null), ("word", .string "I am happy"),
                  ("error", .bool true), ("seo", sampleSeo)] } rfl⟩

end Kaomoji
